import Mathlib

/-!
Verification development for the Columbus Zero travel-planning application.

The data model is a shallow embedding of the PostgreSQL schema
(`database/migrations` schema file): each `CREATE TABLE` becomes a Lean
structure, the database state is one list per table, and the schema's
constraints (UNIQUE, CHECK, ON DELETE CASCADE / SET NULL, the
`update_updated_at_column` BEFORE UPDATE triggers) become Lean functions on
that state.  Columns:
  UUID            -> Nat (an opaque generated identifier)
  VARCHAR / TEXT  -> String
  INTEGER         -> Int
  DECIMAL         -> Int (scaled to the smallest unit; exactness is irrelevant
                     to the claims below)
  DATE            -> Int (day number)
  TIMESTAMP       -> Nat (instant on a discrete clock)
  JSONB           -> Jsonb (opaque document wrapper)
  nullable column -> Option
The request handlers (Lambda functions) are not part of the repository
snapshot; where a claim depends on handler behaviour the handler is modelled
from the specification, and each such definition says so in its doc comment.
-/

namespace ColumbusZero

/-- Opaque wrapper for a JSONB document; the claims never inspect documents,
only store and compare them verbatim. -/
structure Jsonb where
  raw : String
deriving Repr, DecidableEq

/-- Row of the `users` table. -/
structure UserRow where
  id : Nat
  cognito_user_id : String
  email : String
  username : String
  first_name : Option String
  last_name : Option String
  preferred_currency : String
  home_country : Option String
  preferred_language : String
  created_at : Nat
  updated_at : Nat
  last_login_at : Option Nat
  is_active : Bool
deriving Repr, DecidableEq

/-- Row of the `user_preferences` table (UNIQUE(user_id) is kept as an
invariant on the table, see `prefsUnique`). -/
structure UserPreferencesRow where
  id : Nat
  user_id : Nat
  travel_style : Option String
  budget_preference : Option String
  accommodation_preference : Option String
  food_preference : Option String
  activity_preferences : Option Jsonb
  accessibility_needs : Option String
  dietary_restrictions : Option String
  created_at : Nat
  updated_at : Nat
deriving Repr, DecidableEq

/-- Row of the `destinations` table. -/
structure DestinationRow where
  id : Nat
  name : String
  country : String
  city : Option String
  region : Option String
  latitude : Option Int
  longitude : Option Int
  description : Option String
  best_time_to_visit : Option String
  average_temperature_range : Option String
  popular_activities : Option Jsonb
  estimated_daily_budget : Option Jsonb
  tags : Option Jsonb
  is_popular : Bool
  popularity_score : Int
  created_at : Nat
  updated_at : Nat
deriving Repr, DecidableEq

/-- Row of the `itineraries` table. -/
structure ItineraryRow where
  id : Nat
  user_id : Nat
  title : String
  destination_id : Option Nat
  destination_name : String
  start_date : Option Int
  end_date : Option Int
  duration_days : Int
  budget_total : Option Int
  budget_currency : String
  travel_style : Option String
  status : String
  itinerary_data : Jsonb
  ai_model_version : Option String
  generation_metadata : Option Jsonb
  created_at : Nat
  updated_at : Nat
  completed_at : Option Nat
  is_public : Bool
  view_count : Int
deriving Repr, DecidableEq

/-- Row of the `itinerary_days` table. -/
structure ItineraryDayRow where
  id : Nat
  itinerary_id : Nat
  day_number : Int
  date : Option Int
  title : Option String
  description : Option String
  activities : Jsonb
  meals : Option Jsonb
  transportation : Option Jsonb
  estimated_cost : Option Int
  notes : Option String
  created_at : Nat
  updated_at : Nat
deriving Repr, DecidableEq

/-- Row of the `chat_messages` table.  The schema gives this table a
`created_at` column but, unlike the six mutable tables, no `updated_at`
column and no BEFORE UPDATE trigger. -/
structure ChatMessageRow where
  id : Nat
  session_id : Nat
  user_id : Option Nat
  itinerary_id : Option Nat
  role : String
  content : String
  metadata : Option Jsonb
  created_at : Nat
deriving Repr, DecidableEq

/-- Row of the `feedback` table (the CHECK constraint on `rating` is the
function `feedbackRatingCheck`). -/
structure FeedbackRow where
  id : Nat
  user_id : Option Nat
  itinerary_id : Option Nat
  rating : Option Int
  feedback_text : Option String
  feedback_type : Option String
  is_resolved : Bool
  created_at : Nat
  updated_at : Nat
deriving Repr, DecidableEq

/-- Row of the `saved_places` table. -/
structure SavedPlaceRow where
  id : Nat
  user_id : Nat
  destination_id : Option Nat
  place_name : String
  place_type : Option String
  location : Option Jsonb
  notes : Option String
  visited : Bool
  visited_at : Option Nat
  created_at : Nat
deriving Repr, DecidableEq

/-- The relational store: one list of rows per table of the schema. -/
structure Database where
  users : List UserRow
  user_preferences : List UserPreferencesRow
  destinations : List DestinationRow
  itineraries : List ItineraryRow
  itinerary_days : List ItineraryDayRow
  chat_messages : List ChatMessageRow
  feedback : List FeedbackRow
  saved_places : List SavedPlaceRow
deriving Repr, DecidableEq

/-- Error taxonomy of the response envelope (spec section 7). -/
inductive ApiError where
  | validationError (message : String)
  | authError
  | forbiddenError
  | notFoundError
  | generationError
  | upstreamError
  | unexpectedError
deriving Repr, DecidableEq

/-! ## Generate-itinerary handler -/

/-- Nested preference overrides of the generate request (API doc:
`preferences` object). -/
structure PreferenceOverrides where
  activities : Option (List String)
  accommodationType : Option String
  dietaryRestrictions : Option String
deriving Repr, DecidableEq

/-- Body of `POST /itinerary/generate`; a `none` in a required field models
that field missing from the request. -/
structure GenerateItineraryRequest where
  destination : Option String
  durationDays : Option Int
  budget : Option Int
  budgetCurrency : Option String
  travelStyle : Option String
  startDate : Option Int
  preferences : Option PreferenceOverrides
deriving Repr, DecidableEq

/-- The travel styles recognized by the API (API doc: cultural, adventure,
relaxation, backpacking, luxury, foodie, winter; same list as the
front-end select options). -/
def recognizedTravelStyles : List String :=
  ["cultural", "adventure", "relaxation", "backpacking", "luxury", "foodie", "winter"]

/-- Modelled from the spec: the validation step of the generate-itinerary
handler, whose Lambda source is not in the repository snapshot.  Rejects
(returning the offending field name) when destination or duration is
missing, the duration is outside [1,30], or the travel style is not one of
the recognized enum values; returns `none` when the request is valid. -/
def validateGenerateRequest (req : GenerateItineraryRequest) : Option String :=
  match req.destination with
  | none => some "destination"
  | some _ =>
    match req.durationDays with
    | none => some "durationDays"
    | some d =>
      if d < 1 ∨ 30 < d then some "durationDays"
      else
        match req.travelStyle with
        | none => some "travelStyle"
        | some s => if recognizedTravelStyles.contains s then none else some "travelStyle"

/-- Outcome of one generate-itinerary invocation: the response, the store
afterwards, and whether the external generation provider was invoked. -/
structure GenerateOutcome where
  result : Except ApiError (Nat × Jsonb)
  db : Database
  providerCalled : Bool
deriving Repr

/-- Modelled from the spec: the generate-itinerary handler, whose Lambda
source is not in the repository snapshot.  Validates the request; on
validation failure returns `ValidationError` without touching the store or
the provider.  Otherwise invokes the provider (its outcome is the
`provider` argument: `none` is a failed call); on provider failure returns
`GenerationError` with the store untouched; on success inserts one
itinerary row with status `draft`, the requested duration, the provider
document stored verbatim, and the generation metadata. -/
def generateItinerary (caller : Nat) (req : GenerateItineraryRequest)
    (provider : Option Jsonb) (modelVersion : String) (genMeta : Jsonb)
    (now : Nat) (newId : Nat) (db : Database) : GenerateOutcome :=
  match validateGenerateRequest req with
  | some msg => ⟨.error (.validationError msg), db, false⟩
  | none =>
    match provider with
    | none => ⟨.error .generationError, db, true⟩
    | some doc =>
      let row : ItineraryRow :=
        { id := newId
          user_id := caller
          title := (req.destination.getD "") ++ " itinerary"
          destination_id := none
          destination_name := req.destination.getD ""
          start_date := req.startDate
          end_date := none
          duration_days := req.durationDays.getD 0
          budget_total := req.budget
          budget_currency := req.budgetCurrency.getD "USD"
          travel_style := req.travelStyle
          status := "draft"
          itinerary_data := doc
          ai_model_version := some modelVersion
          generation_metadata := some genMeta
          created_at := now
          updated_at := now
          completed_at := none
          is_public := false
          view_count := 0 }
      ⟨.ok (newId, doc), { db with itineraries := db.itineraries ++ [row] }, true⟩

/-! ## Get-itinerary handler -/

/-- Result of `GET /itinerary/{id}`: either the record or `notFound`, which
carries nothing. -/
inductive GetItineraryResult where
  | notFound
  | ok (row : ItineraryRow)
deriving Repr, DecidableEq

/-- Modelled from the spec: the get-itinerary handler, whose Lambda source is
not in the repository snapshot.  Looks up by identifier and returns
`notFound` when the record is absent, or when the caller is not the owner
and the record is not public.  (The optional best-effort view-count
increment is omitted: it is explicitly not required by the contract.) -/
def getItinerary (caller : Nat) (itineraryId : Nat) (db : Database) : GetItineraryResult :=
  match db.itineraries.find? (fun r => r.id == itineraryId) with
  | none => .notFound
  | some r => if r.user_id == caller || r.is_public then .ok r else .notFound

/-! ## Update-itinerary handler -/

/-- Typed value of one field assignment in the update request body. -/
inductive FieldValue where
  | str (s : String)
  | date (d : Int)
  | json (j : Jsonb)
  | flag (b : Bool)
deriving Repr, DecidableEq

/-- Body of `PUT /itinerary/{id}`: a list of named field assignments, so that
assignments to names outside the whitelist can be expressed. -/
abbrev UpdateBody := List (String × FieldValue)

/-- The status enum of the itineraries table. -/
def itineraryStatuses : List String := ["draft", "active", "completed", "archived"]

/-- The update whitelist of `PUT /itinerary/{id}` (API doc, Allowed Fields). -/
def updateWhitelist : List String :=
  ["title", "start_date", "end_date", "status", "itinerary_data", "is_public"]

/-- Modelled from the spec: one field assignment of the update handler.
Assignments to the six whitelisted fields are applied; any other assignment
is silently ignored and leaves the row unchanged. -/
def applyUpdateField (r : ItineraryRow) (f : String × FieldValue) : ItineraryRow :=
  match f with
  | ("title", .str s) => { r with title := s }
  | ("start_date", .date d) => { r with start_date := some d }
  | ("end_date", .date d) => { r with end_date := some d }
  | ("status", .str s) => { r with status := s }
  | ("itinerary_data", .json j) => { r with itinerary_data := j }
  | ("is_public", .flag b) => { r with is_public := b }
  | _ => r

/-- Modelled from the spec: a status assignment, when present, must carry one
of the four enum values; every other assignment passes. -/
def statusFieldValid (f : String × FieldValue) : Bool :=
  if f.1 = "status" then
    match f.2 with
    | .str s => itineraryStatuses.contains s
    | _ => false
  else true

/-- Modelled from the spec: the update-itinerary handler, whose Lambda source
is not in the repository snapshot.  Looks up the record (`NotFound` when
absent), checks ownership (`Forbidden` when the caller is not the owner),
validates any status assignment, folds the whitelisted assignments over the
row, and stores it; the schema's BEFORE UPDATE trigger
(`update_itineraries_updated_at`) then sets `updated_at` to the current
timestamp.  On success it echoes the identifier and the new update
timestamp. -/
def updateItinerary (caller : Nat) (itineraryId : Nat) (body : UpdateBody)
    (now : Nat) (db : Database) : Except ApiError (Nat × Nat) × Database :=
  match db.itineraries.find? (fun r => r.id == itineraryId) with
  | none => (.error .notFoundError, db)
  | some r =>
    if r.user_id == caller then
      if body.all statusFieldValid then
        let r' : ItineraryRow := { body.foldl applyUpdateField r with updated_at := now }
        (.ok (itineraryId, now),
          { db with itineraries := db.itineraries.map (fun x => if x.id == itineraryId then r' else x) })
      else (.error (.validationError "status"), db)
    else (.error .forbiddenError, db)

/-! ## User-preferences handler -/

/-- Submitted preference fields of `POST /user/preferences`. -/
structure PreferencesInput where
  travel_style : Option String
  budget_preference : Option String
  accommodation_preference : Option String
  food_preference : Option String
  activity_preferences : Option Jsonb
  accessibility_needs : Option String
  dietary_restrictions : Option String
deriving Repr, DecidableEq

/-- Full replacement of the stored preference fields by the submitted ones
(spec section 4.5: full-replace semantics), keeping the row identity and
creation time; the schema's `update_user_preferences_updated_at` trigger
sets `updated_at` to the current timestamp. -/
def replacePreferences (row : UserPreferencesRow) (p : PreferencesInput) (now : Nat) :
    UserPreferencesRow :=
  { row with
    travel_style := p.travel_style
    budget_preference := p.budget_preference
    accommodation_preference := p.accommodation_preference
    food_preference := p.food_preference
    activity_preferences := p.activity_preferences
    accessibility_needs := p.accessibility_needs
    dietary_restrictions := p.dietary_restrictions
    updated_at := now }

/-- A fresh preference row for a user with no stored row yet. -/
def newPreferencesRow (newId : Nat) (userId : Nat) (p : PreferencesInput) (now : Nat) :
    UserPreferencesRow :=
  { id := newId
    user_id := userId
    travel_style := p.travel_style
    budget_preference := p.budget_preference
    accommodation_preference := p.accommodation_preference
    food_preference := p.food_preference
    activity_preferences := p.activity_preferences
    accessibility_needs := p.accessibility_needs
    dietary_restrictions := p.dietary_restrictions
    created_at := now
    updated_at := now }

/-- Modelled from the spec: the preference-save handler, whose Lambda source
is not in the repository snapshot.  An atomic insert-or-update guarded by
the schema's UNIQUE(user_id) constraint: when a row for the user exists it
is replaced in place, otherwise a fresh row is inserted. -/
def upsertUserPreferences (db : Database) (userId : Nat) (p : PreferencesInput)
    (newId : Nat) (now : Nat) : Database :=
  if db.user_preferences.any (fun row => row.user_id == userId) then
    let replaced := db.user_preferences.map
      (fun row => if row.user_id == userId then replacePreferences row p now else row)
    { db with user_preferences := replaced }
  else
    { db with user_preferences := db.user_preferences ++ [newPreferencesRow newId userId p now] }

/-- The invariant the schema's UNIQUE(user_id) constraint maintains on the
`user_preferences` table: at most one row per user. -/
def prefsUnique (db : Database) : Prop :=
  ∀ u : Nat, db.user_preferences.countP (fun row => row.user_id == u) ≤ 1

/-! ## Feedback submission -/

/-- The CHECK constraint of the `feedback` table,
`CHECK (rating >= 1 AND rating <= 5)`; per SQL semantics a NULL rating does
not violate the constraint. -/
def feedbackRatingCheck (rating : Option Int) : Bool :=
  match rating with
  | none => true
  | some r => 1 ≤ r && r ≤ 5

/-- Insertion into the `feedback` table under the schema's CHECK constraint:
a row whose rating violates the constraint is rejected and the store is
unchanged; otherwise the row is appended. -/
def insertFeedback (db : Database) (row : FeedbackRow) : Except ApiError Unit × Database :=
  if feedbackRatingCheck row.rating then
    (.ok (), { db with feedback := db.feedback ++ [row] })
  else
    (.error (.validationError "rating"), db)

/-! ## Chat messages -/

/-- Appending one chat message row: the table is append-only, no row is ever
modified. -/
def appendChatMessage (db : Database) (m : ChatMessageRow) : Database :=
  { db with chat_messages := db.chat_messages ++ [m] }

/-- Creation-time order on chat message rows. -/
def chatCreatedLE (a b : ChatMessageRow) : Prop :=
  a.created_at ≤ b.created_at

instance : DecidableRel chatCreatedLE :=
  fun a b => inferInstanceAs (Decidable (a.created_at ≤ b.created_at))

instance : IsTotal ChatMessageRow chatCreatedLE :=
  ⟨fun a b => Nat.le_total a.created_at b.created_at⟩

instance : IsTrans ChatMessageRow chatCreatedLE :=
  ⟨fun _ _ _ hab hbc => Nat.le_trans hab hbc⟩

/-- Modelled from the spec: the session-history retrieval of the chat
handler, whose Lambda source is not in the repository snapshot.  Returns
the session's rows ordered by their creation timestamp (the schema provides
`idx_chat_messages_created_at` for exactly this ordered retrieval). -/
def getSessionMessages (db : Database) (sessionId : Nat) : List ChatMessageRow :=
  (db.chat_messages.filter (fun m => m.session_id == sessionId)).insertionSort chatCreatedLE

/-! ## User deletion cascade -/

/-- Deletion of a user, with the referential actions the schema declares:
rows of `user_preferences`, `itineraries`, `chat_messages`, `feedback` and
`saved_places` whose `user_id` references the user are removed
(ON DELETE CASCADE); the cascade on a removed itinerary removes its
`itinerary_days` and `feedback` rows (ON DELETE CASCADE on `itinerary_id`)
and clears `itinerary_id` in surviving chat messages (ON DELETE SET NULL). -/
def deleteUser (db : Database) (u : Nat) : Database :=
  let deletedItineraries := (db.itineraries.filter (fun i => i.user_id == u)).map (fun i => i.id)
  { users := db.users.filter (fun x => !(x.id == u))
    user_preferences := db.user_preferences.filter (fun x => !(x.user_id == u))
    destinations := db.destinations
    itineraries := db.itineraries.filter (fun x => !(x.user_id == u))
    itinerary_days := db.itinerary_days.filter (fun x => !(deletedItineraries.contains x.itinerary_id))
    chat_messages :=
      (db.chat_messages.filter (fun x => !(x.user_id == some u))).map
        (fun x =>
          if (x.itinerary_id.map (fun i => deletedItineraries.contains i)).getD false then
            { x with itinerary_id := none }
          else x)
    feedback :=
      db.feedback.filter
        (fun x => !(x.user_id == some u
          || (x.itinerary_id.map (fun i => deletedItineraries.contains i)).getD false))
    saved_places := db.saved_places.filter (fun x => !(x.user_id == u)) }

/-! ## BEFORE UPDATE triggers -/

/-- The `update_updated_at_column` trigger as it fires on `users` rows: an
arbitrary SET clause `f` runs first, then the trigger overwrites
`updated_at` with the current timestamp. -/
def triggeredUpdateUsers (f : UserRow → UserRow) (now : Nat) (r : UserRow) : UserRow :=
  { f r with updated_at := now }

/-- The `update_updated_at_column` trigger as it fires on `user_preferences`
rows. -/
def triggeredUpdatePrefs (f : UserPreferencesRow → UserPreferencesRow) (now : Nat)
    (r : UserPreferencesRow) : UserPreferencesRow :=
  { f r with updated_at := now }

/-- The `update_updated_at_column` trigger as it fires on `destinations`
rows. -/
def triggeredUpdateDestinations (f : DestinationRow → DestinationRow) (now : Nat)
    (r : DestinationRow) : DestinationRow :=
  { f r with updated_at := now }

/-- The `update_updated_at_column` trigger as it fires on `itineraries`
rows. -/
def triggeredUpdateItineraries (f : ItineraryRow → ItineraryRow) (now : Nat)
    (r : ItineraryRow) : ItineraryRow :=
  { f r with updated_at := now }

/-- The `update_updated_at_column` trigger as it fires on `itinerary_days`
rows. -/
def triggeredUpdateItineraryDays (f : ItineraryDayRow → ItineraryDayRow) (now : Nat)
    (r : ItineraryDayRow) : ItineraryDayRow :=
  { f r with updated_at := now }

/-- The `update_updated_at_column` trigger as it fires on `feedback` rows. -/
def triggeredUpdateFeedback (f : FeedbackRow → FeedbackRow) (now : Nat)
    (r : FeedbackRow) : FeedbackRow :=
  { f r with updated_at := now }

/-! ## Date-range invariant -/

/-- Day count implied by an inclusive start/end date range (the API examples
pair a 7-day trip with start 2024-06-01 and end 2024-06-07). -/
def impliedDays (s e : Int) : Int := e - s + 1

/-- Whether a stored itinerary satisfies the spec's date-range invariant:
when both dates are present, `duration_days` equals the implied day count;
rows with a missing date satisfy it vacuously. -/
def durationMatchesDates (r : ItineraryRow) : Bool :=
  match r.start_date, r.end_date with
  | some s, some e => r.duration_days == impliedDays s e
  | _, _ => true

/-! ## Frame agreement for the update whitelist -/

/-- Agreement of two itinerary rows on every column outside the update
whitelist other than `updated_at` (which the schema's BEFORE UPDATE trigger
overwrites on every update). -/
def agreesOutsideWhitelist (a b : ItineraryRow) : Prop :=
  a.id = b.id ∧ a.user_id = b.user_id ∧ a.destination_id = b.destination_id ∧
  a.destination_name = b.destination_name ∧ a.duration_days = b.duration_days ∧
  a.budget_total = b.budget_total ∧ a.budget_currency = b.budget_currency ∧
  a.travel_style = b.travel_style ∧ a.ai_model_version = b.ai_model_version ∧
  a.generation_metadata = b.generation_metadata ∧ a.created_at = b.created_at ∧
  a.completed_at = b.completed_at ∧ a.view_count = b.view_count

/-! ## Sample data used by witnesses and counterexamples -/

/-- The empty store. -/
def emptyDb : Database :=
  { users := [], user_preferences := [], destinations := [], itineraries := []
    itinerary_days := [], chat_messages := [], feedback := [], saved_places := [] }

/-- A sample generated document. -/
def sampleDoc : Jsonb := ⟨"generated document"⟩

/-- A sample stored itinerary: owner 1, private, consistent dates
(7 days, day 0 through day 6), last updated at time 5. -/
def sampleItinerary : ItineraryRow :=
  { id := 1
    user_id := 1
    title := "Tokyo trip"
    destination_id := none
    destination_name := "Tokyo, Japan"
    start_date := some 0
    end_date := some 6
    duration_days := 7
    budget_total := some 200000
    budget_currency := "USD"
    travel_style := some "cultural"
    status := "draft"
    itinerary_data := sampleDoc
    ai_model_version := some "model-v1"
    generation_metadata := none
    created_at := 5
    updated_at := 5
    completed_at := none
    is_public := false
    view_count := 0 }

/-- A store holding only `sampleItinerary`. -/
def sampleDb : Database := { emptyDb with itineraries := [sampleItinerary] }

/-- A sample valid generate request (the spec's test scenario). -/
def sampleRequest : GenerateItineraryRequest :=
  { destination := some "Tokyo, Japan"
    durationDays := some 7
    budget := some 200000
    budgetCurrency := some "USD"
    travelStyle := some "cultural"
    startDate := none
    preferences := none }

/-- A generate request whose duration is outside [1,30]. -/
def overlongRequest : GenerateItineraryRequest :=
  { sampleRequest with durationDays := some 45 }

/-- A sample preference submission. -/
def samplePrefsA : PreferencesInput :=
  { travel_style := some "cultural"
    budget_preference := some "moderate"
    accommodation_preference := some "hotel"
    food_preference := some "local"
    activity_preferences := none
    accessibility_needs := none
    dietary_restrictions := some "vegetarian" }

/-- A second, different preference submission by the same user. -/
def samplePrefsB : PreferencesInput :=
  { travel_style := some "adventure"
    budget_preference := some "budget"
    accommodation_preference := some "hostel"
    food_preference := some "local"
    activity_preferences := none
    accessibility_needs := none
    dietary_restrictions := none }

/-- A feedback row carrying rating `r`. -/
def sampleFeedback (r : Int) : FeedbackRow :=
  { id := 1
    user_id := some 1
    itinerary_id := some 1
    rating := some r
    feedback_text := some "Great trip"
    feedback_type := some "itinerary"
    is_resolved := false
    created_at := 5
    updated_at := 5 }

/-! ## Helper lemmas -/

theorem agreesOutsideWhitelist_refl (a : ItineraryRow) : agreesOutsideWhitelist a a := by
  simp [agreesOutsideWhitelist]

theorem agreesOutsideWhitelist_trans {a b c : ItineraryRow}
    (h1 : agreesOutsideWhitelist a b) (h2 : agreesOutsideWhitelist b c) :
    agreesOutsideWhitelist a c := by
  obtain ⟨e1, e2, e3, e4, e5, e6, e7, e8, e9, e10, e11, e12, e13⟩ := h1
  obtain ⟨g1, g2, g3, g4, g5, g6, g7, g8, g9, g10, g11, g12, g13⟩ := h2
  exact ⟨e1.trans g1, e2.trans g2, e3.trans g3, e4.trans g4, e5.trans g5, e6.trans g6,
    e7.trans g7, e8.trans g8, e9.trans g9, e10.trans g10, e11.trans g11, e12.trans g12,
    e13.trans g13⟩

theorem applyUpdateField_agrees (r : ItineraryRow) (f : String × FieldValue) :
    agreesOutsideWhitelist (applyUpdateField r f) r := by
  unfold applyUpdateField
  split <;> simp [agreesOutsideWhitelist]

theorem foldl_applyUpdateField_agrees (body : UpdateBody) :
    ∀ r : ItineraryRow, agreesOutsideWhitelist (body.foldl applyUpdateField r) r := by
  induction body with
  | nil => intro r; exact agreesOutsideWhitelist_refl r
  | cons f fs ih =>
    intro r
    exact agreesOutsideWhitelist_trans (ih (applyUpdateField r f)) (applyUpdateField_agrees r f)

theorem set_updated_at_agrees (x : ItineraryRow) (now : Nat) :
    agreesOutsideWhitelist { x with updated_at := now } x := by
  simp [agreesOutsideWhitelist]

theorem find?_map_replace (l : List ItineraryRow) (i : Nat) (r r' : ItineraryRow)
    (hfind : l.find? (fun x => x.id == i) = some r) (hr' : (r'.id == i) = true) :
    (l.map (fun x => if x.id == i then r' else x)).find? (fun x => x.id == i) = some r' := by
  induction l with
  | nil => simp at hfind
  | cons a l ih =>
    rw [List.map_cons]
    by_cases ha : (a.id == i) = true
    · rw [if_pos ha]
      exact List.find?_cons_of_pos _ hr'
    · rw [if_neg ha]
      rw [List.find?_cons_of_neg _ (by simpa using ha)] at hfind
      rw [List.find?_cons_of_neg _ (by simpa using ha)]
      exact ih hfind

theorem statusFieldValid_of_unlisted (f : String × FieldValue)
    (h : (updateWhitelist.contains f.1) = false) : statusFieldValid f = true := by
  have hn : f.1 ≠ "status" := by
    intro he
    rw [he] at h
    simp [updateWhitelist] at h
  simp [statusFieldValid, hn]

theorem agreesOutsideWhitelist_duration {a b : ItineraryRow}
    (h : agreesOutsideWhitelist a b) : a.duration_days = b.duration_days :=
  h.2.2.2.2.1

theorem updateItinerary_ok_eq (caller itineraryId : Nat) (body : UpdateBody) (now : Nat)
    (db : Database) (r : ItineraryRow)
    (hfind : db.itineraries.find? (fun x => x.id == itineraryId) = some r)
    (hbeq : (r.user_id == caller) = true)
    (hvalid : body.all statusFieldValid = true) :
    updateItinerary caller itineraryId body now db
      = (.ok (itineraryId, now),
        { db with itineraries :=
            db.itineraries.map (fun x =>
              if x.id == itineraryId then
                { body.foldl applyUpdateField r with updated_at := now }
              else x) }) := by
  unfold updateItinerary
  rw [hfind]
  simp only [hbeq, hvalid, if_true]

theorem updateItinerary_forbidden_eq (caller itineraryId : Nat) (body : UpdateBody) (now : Nat)
    (db : Database) (r : ItineraryRow)
    (hfind : db.itineraries.find? (fun x => x.id == itineraryId) = some r)
    (hbeq : (r.user_id == caller) = false) :
    updateItinerary caller itineraryId body now db = (.error .forbiddenError, db) := by
  unfold updateItinerary
  rw [hfind]
  simp only [hbeq, Bool.false_eq_true, if_false]

theorem updateItinerary_badstatus_eq (caller itineraryId : Nat) (body : UpdateBody) (now : Nat)
    (db : Database) (r : ItineraryRow)
    (hfind : db.itineraries.find? (fun x => x.id == itineraryId) = some r)
    (hbeq : (r.user_id == caller) = true)
    (hvalid : body.all statusFieldValid = false) :
    updateItinerary caller itineraryId body now db
      = (.error (.validationError "status"), db) := by
  unfold updateItinerary
  rw [hfind]
  simp only [hbeq, hvalid, Bool.false_eq_true, if_true, if_false]

theorem countP_upsert (db : Database) (u : Nat) (p : PreferencesInput) (newId now : Nat)
    (h : db.user_preferences.countP (fun row => row.user_id == u) ≤ 1) :
    (upsertUserPreferences db u p newId now).user_preferences.countP
      (fun row => row.user_id == u) = 1 := by
  unfold upsertUserPreferences
  by_cases hany : db.user_preferences.any (fun row => row.user_id == u) = true
  · rw [if_pos hany]
    have hmap : ((db.user_preferences.map
        (fun row => if row.user_id == u then replacePreferences row p now else row)).countP
          (fun row => row.user_id == u))
        = db.user_preferences.countP (fun row => row.user_id == u) := by
      rw [List.countP_map]
      apply List.countP_congr
      intro row _
      by_cases hrow : (row.user_id == u) = true
      · simp [Function.comp, hrow, replacePreferences]
      · simp [Function.comp, hrow]
    have hpos : 0 < db.user_preferences.countP (fun row => row.user_id == u) := by
      rw [List.countP_pos_iff]
      exact List.any_eq_true.mp hany
    simp only [hmap]
    omega
  · rw [if_neg hany]
    have hzero : db.user_preferences.countP (fun row => row.user_id == u) = 0 := by
      rw [List.countP_eq_zero]
      intro a ha hpa
      exact hany (List.any_eq_true.mpr ⟨a, ha, hpa⟩)
    rw [List.countP_append, hzero, Nat.zero_add]
    simp [List.countP_cons, newPreferencesRow]

/-! ## Claim theorems -/

/-- C10: every successful UPDATE to a row of `users`, `user_preferences`,
`destinations`, `itineraries`, `itinerary_days` or `feedback` sets the
row's `updated_at` to the current timestamp (the `update_updated_at_column`
BEFORE UPDATE trigger), whatever the SET clause did; `chat_messages` rows
have exactly the eight columns id, session_id, user_id, itinerary_id, role,
content, metadata, created_at — no `updated_at` — and appending leaves
every existing row untouched, matching their append-only role. -/
theorem triggers_set_updated_at_and_chat_has_none :
    (∀ (f : UserRow → UserRow) (now : Nat) (r : UserRow),
      (triggeredUpdateUsers f now r).updated_at = now) ∧
    (∀ (f : UserPreferencesRow → UserPreferencesRow) (now : Nat) (r : UserPreferencesRow),
      (triggeredUpdatePrefs f now r).updated_at = now) ∧
    (∀ (f : DestinationRow → DestinationRow) (now : Nat) (r : DestinationRow),
      (triggeredUpdateDestinations f now r).updated_at = now) ∧
    (∀ (f : ItineraryRow → ItineraryRow) (now : Nat) (r : ItineraryRow),
      (triggeredUpdateItineraries f now r).updated_at = now) ∧
    (∀ (f : ItineraryDayRow → ItineraryDayRow) (now : Nat) (r : ItineraryDayRow),
      (triggeredUpdateItineraryDays f now r).updated_at = now) ∧
    (∀ (f : FeedbackRow → FeedbackRow) (now : Nat) (r : FeedbackRow),
      (triggeredUpdateFeedback f now r).updated_at = now) ∧
    (∀ m : ChatMessageRow,
      m = ChatMessageRow.mk m.id m.session_id m.user_id m.itinerary_id m.role m.content
        m.metadata m.created_at) ∧
    (∀ (db : Database) (m : ChatMessageRow),
      (appendChatMessage db m).chat_messages = db.chat_messages ++ [m]) := by
  refine ⟨?_, ?_, ?_, ?_, ?_, ?_, ?_, ?_⟩ <;> intros <;> rfl

/-- C9: deleting a user removes, through the schema's ON DELETE CASCADE
referential actions, every row of `user_preferences`, `itineraries`,
`chat_messages`, `feedback` and `saved_places` owned by that user: after
the delete no row of those tables references the deleted user. -/
theorem deleteUser_removes_owned_rows :
    ∀ (db : Database) (u : Nat),
      ((deleteUser db u).user_preferences.all (fun x => !(x.user_id == u)) = true)
      ∧ ((deleteUser db u).itineraries.all (fun x => !(x.user_id == u)) = true)
      ∧ ((deleteUser db u).chat_messages.all (fun x => !(x.user_id == some u)) = true)
      ∧ ((deleteUser db u).feedback.all (fun x => !(x.user_id == some u)) = true)
      ∧ ((deleteUser db u).saved_places.all (fun x => !(x.user_id == u)) = true) := by
  intro db u
  refine ⟨?_, ?_, ?_, ?_, ?_⟩ <;> rw [List.all_eq_true]
  · intro x hx
    exact (List.mem_filter.mp hx).2
  · intro x hx
    exact (List.mem_filter.mp hx).2
  · intro x hx
    obtain ⟨y, hy, hxy⟩ := List.mem_map.mp hx
    have hy' := (List.mem_filter.mp hy).2
    have huser : x.user_id = y.user_id := by
      subst hxy
      split <;> rfl
    show (!(x.user_id == some u)) = true
    rw [huser]
    exact hy'
  · intro x hx
    have h2 := (List.mem_filter.mp hx).2
    simp only [Bool.not_eq_true', Bool.or_eq_false_iff] at h2
    show (!(x.user_id == some u)) = true
    simp only [Bool.not_eq_true']
    exact h2.1
  · intro x hx
    exact (List.mem_filter.mp hx).2

/-- C7: for every store state and every chat session, the session-history
retrieval returns the session's message rows sorted by non-decreasing
creation timestamp, and those rows are exactly (a permutation of) the
session's rows — so the order of retrieval is independent of the order in
which concurrent insertions appended them. -/
theorem getSessionMessages_sorted :
    ∀ (db : Database) (sessionId : Nat),
      List.Sorted chatCreatedLE (getSessionMessages db sessionId) ∧
      List.Perm (getSessionMessages db sessionId)
        (db.chat_messages.filter (fun m => m.session_id == sessionId)) :=
  fun db sessionId =>
    ⟨List.sorted_insertionSort chatCreatedLE
        (db.chat_messages.filter (fun m => m.session_id == sessionId)),
      List.perm_insertionSort chatCreatedLE
        (db.chat_messages.filter (fun m => m.session_id == sessionId))⟩

/-- C6: feedback submission enforces the schema's
`CHECK (rating >= 1 AND rating <= 5)`: a submission whose rating lies
outside [1,5] is rejected and the feedback table is unchanged (the row is
not stored); a submission whose rating lies inside [1,5] is accepted and
appended. -/
theorem insertFeedback_enforces_rating_range (db : Database) (row : FeedbackRow) (r : Int)
    (h : row.rating = some r) :
    (¬(1 ≤ r ∧ r ≤ 5) →
      insertFeedback db row = (.error (.validationError "rating"), db)) ∧
    ((1 ≤ r ∧ r ≤ 5) →
      insertFeedback db row = (.ok (), { db with feedback := db.feedback ++ [row] })) := by
  constructor
  · intro hr
    have hc : feedbackRatingCheck row.rating = false := by
      rw [h]
      unfold feedbackRatingCheck
      rw [Bool.and_eq_false_iff]
      rcases Decidable.not_and_iff_or_not.mp hr with h1 | h1
      · exact Or.inl (by simpa using h1)
      · exact Or.inr (by simpa using h1)
    unfold insertFeedback
    rw [hc]
    rfl
  · intro hr
    have hc : feedbackRatingCheck row.rating = true := by
      rw [h]
      unfold feedbackRatingCheck
      rw [Bool.and_eq_true]
      exact ⟨by simpa using hr.1, by simpa using hr.2⟩
    unfold insertFeedback
    rw [hc]
    rfl

/-- Witness for C6: a rating of 6 is rejected leaving the store unchanged,
and a rating of 3 is accepted and stored. -/
theorem insertFeedback_enforces_rating_range_witness :
    insertFeedback emptyDb (sampleFeedback 6) = (.error (.validationError "rating"), emptyDb) ∧
    insertFeedback emptyDb (sampleFeedback 3)
      = (.ok (), { emptyDb with feedback := emptyDb.feedback ++ [sampleFeedback 3] }) :=
  ⟨(insertFeedback_enforces_rating_range emptyDb (sampleFeedback 6) 6 rfl).1 (by decide),
    (insertFeedback_enforces_rating_range emptyDb (sampleFeedback 3) 3 rfl).2 (by decide)⟩

/-- C4: the get-itinerary handler returns `notFound` — and in particular
never the record's contents, which only the `ok` constructor carries —
whenever no record with the requested identifier exists, and whenever the
record exists but the caller is not its owner and it is not public. -/
theorem getItinerary_hides_record (caller itineraryId : Nat) (db : Database) :
    (db.itineraries.find? (fun r => r.id == itineraryId) = none →
      getItinerary caller itineraryId db = .notFound) ∧
    (∀ r : ItineraryRow, db.itineraries.find? (fun x => x.id == itineraryId) = some r →
      r.user_id ≠ caller → r.is_public = false →
      getItinerary caller itineraryId db = .notFound) := by
  constructor
  · intro hnone
    unfold getItinerary
    rw [hnone]
  · intro r hfind howner hpub
    unfold getItinerary
    rw [hfind]
    simp [howner, hpub]

/-- Witness for C4: caller 2 does not own the private `sampleItinerary` and
receives `notFound`; identifier 99 is absent and also yields `notFound`. -/
theorem getItinerary_hides_record_witness :
    getItinerary 2 1 sampleDb = .notFound ∧ getItinerary 1 99 sampleDb = .notFound :=
  ⟨(getItinerary_hides_record 2 1 sampleDb).2 sampleItinerary (by rfl) (by decide) (by rfl),
    (getItinerary_hides_record 1 99 sampleDb).1 (by rfl)⟩

/-- C2: in any store satisfying the UNIQUE(user_id) invariant of the
`user_preferences` table, saving preferences twice for the same user leaves
exactly one preference row for that user — the second save replaces the
first instead of adding a row. -/
theorem upsert_twice_leaves_one_row (db : Database) (u : Nat) (p1 p2 : PreferencesInput)
    (id1 id2 t1 t2 : Nat) (hinv : prefsUnique db) :
    ((upsertUserPreferences (upsertUserPreferences db u p1 id1 t1) u p2 id2 t2).user_preferences.countP
      (fun row => row.user_id == u)) = 1 := by
  have h1 : (upsertUserPreferences db u p1 id1 t1).user_preferences.countP
      (fun row => row.user_id == u) = 1 :=
    countP_upsert db u p1 id1 t1 (hinv u)
  exact countP_upsert (upsertUserPreferences db u p1 id1 t1) u p2 id2 t2 (le_of_eq h1)

/-- Witness for C2: two saves by user 1 starting from the empty store leave
exactly one `user_preferences` row for user 1. -/
theorem upsert_twice_leaves_one_row_witness :
    ((upsertUserPreferences (upsertUserPreferences emptyDb 1 samplePrefsA 10 1)
        1 samplePrefsB 11 2).user_preferences.countP (fun row => row.user_id == 1)) = 1 :=
  upsert_twice_leaves_one_row emptyDb 1 samplePrefsA samplePrefsB 10 11 1 2
    (fun u => by simp [emptyDb])

/-- C1: a generate-itinerary request carrying a duration d in [1,30] that
succeeds persists exactly one new itinerary row, whose `duration_days`
equals the requested duration and whose status is `draft`. -/
theorem generateItinerary_draft_with_requested_duration
    (caller : Nat) (req : GenerateItineraryRequest) (provider : Option Jsonb)
    (modelVersion : String) (genMeta : Jsonb) (now newId : Nat) (db : Database) (d : Int)
    (hdur : req.durationDays = some d) (hlo : 1 ≤ d) (hhi : d ≤ 30)
    (hok : ∃ v, (generateItinerary caller req provider modelVersion genMeta now newId db).result
      = .ok v) :
    ∃ row : ItineraryRow,
      (generateItinerary caller req provider modelVersion genMeta now newId db).db.itineraries
        = db.itineraries ++ [row]
      ∧ row.duration_days = d ∧ row.status = "draft" := by
  obtain ⟨v, hv⟩ := hok
  unfold generateItinerary at hv ⊢
  cases hval : validateGenerateRequest req with
  | some msg =>
    rw [hval] at hv
    simp at hv
  | none =>
    cases provider with
    | none =>
      rw [hval] at hv
      simp at hv
    | some doc =>
      refine ⟨_, rfl, ?_, rfl⟩
      simp [hdur]

/-- Witness for C1: the spec's sample request (7 days, cultural, Tokyo) with
a successful provider call stores one new row with duration 7 and status
`draft`. -/
theorem generateItinerary_draft_with_requested_duration_witness :
    ∃ row : ItineraryRow,
      (generateItinerary 1 sampleRequest (some sampleDoc) "model-v1" ⟨"meta"⟩ 5 1
          emptyDb).db.itineraries
        = emptyDb.itineraries ++ [row]
      ∧ row.duration_days = 7 ∧ row.status = "draft" :=
  generateItinerary_draft_with_requested_duration 1 sampleRequest (some sampleDoc) "model-v1"
    ⟨"meta"⟩ 5 1 emptyDb 7 rfl (by decide) (by decide) ⟨(1, sampleDoc), rfl⟩

/-- C8: a generate-itinerary request with a missing destination, a missing
duration, a duration outside [1,30], or an unrecognized travel style is
answered with `ValidationError`, and the handler leaves the store untouched
and never invokes the generation provider. -/
theorem generateItinerary_rejects_invalid
    (caller : Nat) (req : GenerateItineraryRequest) (provider : Option Jsonb)
    (modelVersion : String) (genMeta : Jsonb) (now newId : Nat) (db : Database)
    (hbad : req.destination = none ∨ req.durationDays = none
      ∨ (∃ d, req.durationDays = some d ∧ (d < 1 ∨ 30 < d))
      ∨ req.travelStyle = none
      ∨ (∃ s, req.travelStyle = some s ∧ recognizedTravelStyles.contains s = false)) :
    (∃ msg, (generateItinerary caller req provider modelVersion genMeta now newId db).result
      = .error (.validationError msg))
    ∧ (generateItinerary caller req provider modelVersion genMeta now newId db).db = db
    ∧ (generateItinerary caller req provider modelVersion genMeta now newId
        db).providerCalled = false := by
  have hval : ∃ msg, validateGenerateRequest req = some msg := by
    rcases hbad with h | h | ⟨d, hd, hrange⟩ | h | ⟨s, hs, hcon⟩
    · refine ⟨"destination", ?_⟩
      unfold validateGenerateRequest
      simp only [h]
    · cases hdest : req.destination with
      | none =>
        refine ⟨"destination", ?_⟩
        unfold validateGenerateRequest
        simp only [hdest]
      | some dest =>
        refine ⟨"durationDays", ?_⟩
        unfold validateGenerateRequest
        simp only [hdest, h]
    · cases hdest : req.destination with
      | none =>
        refine ⟨"destination", ?_⟩
        unfold validateGenerateRequest
        simp only [hdest]
      | some dest =>
        refine ⟨"durationDays", ?_⟩
        unfold validateGenerateRequest
        simp only [hdest, hd]
        rw [if_pos hrange]
    · cases hdest : req.destination with
      | none =>
        refine ⟨"destination", ?_⟩
        unfold validateGenerateRequest
        simp only [hdest]
      | some dest =>
        cases hdu : req.durationDays with
        | none =>
          refine ⟨"durationDays", ?_⟩
          unfold validateGenerateRequest
          simp only [hdest, hdu]
        | some d =>
          by_cases hrange : d < 1 ∨ 30 < d
          · refine ⟨"durationDays", ?_⟩
            unfold validateGenerateRequest
            simp only [hdest, hdu]
            rw [if_pos hrange]
          · refine ⟨"travelStyle", ?_⟩
            unfold validateGenerateRequest
            simp only [hdest, hdu, h]
            rw [if_neg hrange]
    · cases hdest : req.destination with
      | none =>
        refine ⟨"destination", ?_⟩
        unfold validateGenerateRequest
        simp only [hdest]
      | some dest =>
        cases hdu : req.durationDays with
        | none =>
          refine ⟨"durationDays", ?_⟩
          unfold validateGenerateRequest
          simp only [hdest, hdu]
        | some d =>
          by_cases hrange : d < 1 ∨ 30 < d
          · refine ⟨"durationDays", ?_⟩
            unfold validateGenerateRequest
            simp only [hdest, hdu]
            rw [if_pos hrange]
          · refine ⟨"travelStyle", ?_⟩
            unfold validateGenerateRequest
            simp only [hdest, hdu, hs]
            rw [if_neg hrange]
            have hmem : s ∉ recognizedTravelStyles := by simpa using hcon
            simp [hmem]
  obtain ⟨msg, hv⟩ := hval
  unfold generateItinerary
  rw [hv]
  exact ⟨⟨msg, rfl⟩, rfl, rfl⟩

/-- Witness for C8: a request with duration 45 is rejected with
`ValidationError`; the store is unchanged and the provider is not
called. -/
theorem generateItinerary_rejects_invalid_witness :
    (∃ msg, (generateItinerary 1 overlongRequest (some sampleDoc) "model-v1" ⟨"meta"⟩ 5 1
        emptyDb).result = .error (.validationError msg))
    ∧ (generateItinerary 1 overlongRequest (some sampleDoc) "model-v1" ⟨"meta"⟩ 5 1
        emptyDb).db = emptyDb
    ∧ (generateItinerary 1 overlongRequest (some sampleDoc) "model-v1" ⟨"meta"⟩ 5 1
        emptyDb).providerCalled = false :=
  generateItinerary_rejects_invalid 1 overlongRequest (some sampleDoc) "model-v1" ⟨"meta"⟩ 5 1
    emptyDb (Or.inr (Or.inr (Or.inl ⟨45, rfl, by decide⟩)))

/-- Counterexample to C3 as stated: an update whose body touches only the
whitelisted field `title` succeeds, yet `updated_at` — a field of the
stored record outside the whitelist — does not round-trip to its prior
value: the schema's `update_itineraries_updated_at` BEFORE UPDATE trigger
overwrites it with the current timestamp (here 5 becomes 10). -/
theorem updateItinerary_changes_nonwhitelisted_field :
    (updateItinerary 1 1 [("title", FieldValue.str "New title")] 10 sampleDb).1 = .ok (1, 10)
    ∧ ((updateItinerary 1 1 [("title", FieldValue.str "New title")] 10 sampleDb).2.itineraries.map
        (fun x => x.updated_at)) ≠ sampleDb.itineraries.map (fun x => x.updated_at) :=
  ⟨rfl, by decide⟩

/-- C3 amended: for every update request by the record's owner whose status
assignments (if any) are valid, the call succeeds, and the stored record
agrees with its prior value on every field outside the whitelist except
`updated_at`, which the BEFORE UPDATE trigger sets to the current
timestamp; moreover a body consisting solely of assignments to names
outside the whitelist is silently accepted rather than rejected. -/
theorem updateItinerary_whitelist_frame
    (caller itineraryId : Nat) (body : UpdateBody) (now : Nat) (db : Database) (r : ItineraryRow)
    (hfind : db.itineraries.find? (fun x => x.id == itineraryId) = some r)
    (howner : r.user_id = caller) :
    (body.all statusFieldValid = true →
      ∃ r', (updateItinerary caller itineraryId body now db).2.itineraries.find?
          (fun x => x.id == itineraryId) = some r'
        ∧ agreesOutsideWhitelist r' r ∧ r'.updated_at = now
        ∧ (updateItinerary caller itineraryId body now db).1 = .ok (itineraryId, now))
    ∧ (body.all (fun f => !(updateWhitelist.contains f.1)) = true →
      (updateItinerary caller itineraryId body now db).1 = .ok (itineraryId, now)) := by
  have hbeq : (r.user_id == caller) = true := by simp [howner]
  have main : body.all statusFieldValid = true →
      ∃ r', (updateItinerary caller itineraryId body now db).2.itineraries.find?
          (fun x => x.id == itineraryId) = some r'
        ∧ agreesOutsideWhitelist r' r ∧ r'.updated_at = now
        ∧ (updateItinerary caller itineraryId body now db).1 = .ok (itineraryId, now) := by
    intro hvalid
    rw [updateItinerary_ok_eq caller itineraryId body now db r hfind hbeq hvalid]
    refine ⟨{ body.foldl applyUpdateField r with updated_at := now }, ?_, ?_, rfl, rfl⟩
    · apply find?_map_replace db.itineraries itineraryId r _ hfind
      have hid : ({ body.foldl applyUpdateField r with updated_at := now } : ItineraryRow).id
          = r.id := (foldl_applyUpdateField_agrees body r).1
      rw [hid]
      exact List.find?_some (p := fun (x : ItineraryRow) => x.id == itineraryId) hfind
    · exact agreesOutsideWhitelist_trans
        (set_updated_at_agrees (body.foldl applyUpdateField r) now)
        (foldl_applyUpdateField_agrees body r)
  refine ⟨main, ?_⟩
  intro hunlisted
  have hvalid : body.all statusFieldValid = true := by
    rw [List.all_eq_true] at hunlisted ⊢
    intro f hf
    exact statusFieldValid_of_unlisted f (by simpa using hunlisted f hf)
  obtain ⟨r', _, _, _, hres⟩ := main hvalid
  exact hres

/-- Witness for C3 amended: updating only the title of `sampleItinerary`
succeeds and the stored row keeps every non-whitelisted field except
`updated_at`, which becomes 10. -/
theorem updateItinerary_whitelist_frame_witness :
    ∃ r', ((updateItinerary 1 1 [("title", FieldValue.str "New title")] 10 sampleDb).2.itineraries.find?
        (fun x => x.id == 1) = some r')
      ∧ agreesOutsideWhitelist r' sampleItinerary ∧ r'.updated_at = 10
      ∧ (updateItinerary 1 1 [("title", FieldValue.str "New title")] 10 sampleDb).1 = .ok (1, 10) :=
  (updateItinerary_whitelist_frame 1 1 [("title", FieldValue.str "New title")] 10 sampleDb
    sampleItinerary (by rfl) rfl).1 (by decide)

/-- Counterexample to C5 as stated: `sampleDb` satisfies the date-range
invariant (7 days, day 0 through day 6), the owner's update setting
`end_date` to day 20 succeeds, and afterwards the stored itinerary has both
dates present but `duration_days` = 7 while the range implies 21 days —
neither the schema (which has no CHECK tying the three columns) nor the
update handler (whose whitelist includes the dates but not
`duration_days`) enforces the invariant. -/
theorem updateItinerary_breaks_duration_invariant :
    sampleDb.itineraries.all durationMatchesDates = true
    ∧ (updateItinerary 1 1 [("end_date", FieldValue.date 20)] 10 sampleDb).1 = .ok (1, 10)
    ∧ (updateItinerary 1 1 [("end_date", FieldValue.date 20)] 10 sampleDb).2.itineraries.all
        durationMatchesDates = false :=
  ⟨by decide, rfl, by decide⟩

/-- C5 amended: `duration_days` is fixed at creation and never modified by
the update handler — an update leaves the stored record's `duration_days`
at its prior value even when it changes `start_date` or `end_date` — and no
layer enforces the match with the date range, so the invariant holds after
an update only if the written values themselves happen to satisfy it. -/
theorem updateItinerary_never_changes_duration
    (caller itineraryId : Nat) (body : UpdateBody) (now : Nat) (db : Database)
    (r r' : ItineraryRow)
    (hfind : db.itineraries.find? (fun x => x.id == itineraryId) = some r)
    (hfind' : (updateItinerary caller itineraryId body now db).2.itineraries.find?
        (fun x => x.id == itineraryId) = some r') :
    r'.duration_days = r.duration_days := by
  by_cases howner : (r.user_id == caller) = true
  · by_cases hvalid : body.all statusFieldValid = true
    · rw [updateItinerary_ok_eq caller itineraryId body now db r hfind howner hvalid] at hfind'
      have hreplaced := find?_map_replace db.itineraries itineraryId r
        { body.foldl applyUpdateField r with updated_at := now } hfind
        (by
          have hid : ({ body.foldl applyUpdateField r with updated_at := now } : ItineraryRow).id
              = r.id := (foldl_applyUpdateField_agrees body r).1
          rw [hid]
          exact List.find?_some (p := fun (x : ItineraryRow) => x.id == itineraryId) hfind)
      rw [hreplaced] at hfind'
      have hr' : r' = { body.foldl applyUpdateField r with updated_at := now } :=
        (Option.some.inj hfind').symm
      rw [hr']
      exact agreesOutsideWhitelist_duration
        (agreesOutsideWhitelist_trans
          (set_updated_at_agrees (body.foldl applyUpdateField r) now)
          (foldl_applyUpdateField_agrees body r))
    · rw [updateItinerary_badstatus_eq caller itineraryId body now db r hfind howner
          (Bool.eq_false_iff.mpr hvalid)] at hfind'
      rw [hfind] at hfind'
      rw [(Option.some.inj hfind').symm]
  · rw [updateItinerary_forbidden_eq caller itineraryId body now db r hfind
        (Bool.eq_false_iff.mpr howner)] at hfind'
    rw [hfind] at hfind'
    rw [(Option.some.inj hfind').symm]

/-- Witness for C5 amended: after the owner's update of `end_date` to day
20, the stored row's `duration_days` is still the prior value 7. -/
theorem updateItinerary_never_changes_duration_witness :
    ({ sampleItinerary with end_date := some 20, updated_at := 10 } : ItineraryRow).duration_days
      = sampleItinerary.duration_days :=
  updateItinerary_never_changes_duration 1 1 [("end_date", FieldValue.date 20)] 10 sampleDb
    sampleItinerary { sampleItinerary with end_date := some 20, updated_at := 10 }
    (by rfl) (by decide)

end ColumbusZero
